import Mathlib

/-!
Shallow embedding of `scripts/yacal.py` (Yandex Calendar CLI via CalDAV).

Modelling conventions:
* Python `datetime.datetime` values are naive local timestamps; we model them
  as `Nat` microseconds counted from a local-midnight-aligned epoch, so
  `dt.replace(hour=0, minute=0, second=0, microsecond=0)` is truncation to a
  multiple of `microsecondsPerDay`, and `dt + timedelta(days=1)` is addition
  of `microsecondsPerDay`.
* Optional Python arguments are `Option _`; Python truthiness of an optional
  string (`if name:`) treats both `None` and `""` as falsy, an optional int
  (`if reminder_minutes:`) treats `None` and `0` as falsy, and a datetime or
  a caldav `Calendar` object is always truthy when present.
* A raised Python exception is `Except.error`; in particular dereferencing a
  `None` calendar (`calendar.events()` after `get_calendar()` returned
  `None`) is `PyError.attributeError`.
* The remote CalDAV server is modelled by the in-memory contents of each
  calendar (its events and todos); `date_search` is external, so
  `get_events` records the query handed to it as a `RangeQuery`.
-/

namespace Yacal

/-- Python truthiness of an `Optional[str]` argument: `None` and `""` are falsy. -/
def strTruthy : Option String → Bool
  | none => false
  | some s => !s.isEmpty

/-- Python truthiness of an `Optional[int]` argument: `None` and `0` are falsy. -/
def intTruthy : Option Int → Bool
  | none => false
  | some m => m != 0

/-- Microseconds in one hour (`datetime.timedelta(hours=1)`). -/
def microsecondsPerHour : Nat := 3600000000

/-- Microseconds in one day (`datetime.timedelta(days=1)`). -/
def microsecondsPerDay : Nat := 86400000000

/-- One event of a calendar as seen through `event.icalendar_component`:
uid, summary, description, location and the start/end timestamps. -/
structure ICalEvent where
  uid : String
  summary : String
  description : String
  location : String
  dtstart : Nat
  dtend : Nat
deriving DecidableEq

/-- One VTODO as seen through `todo.icalendar_component`. -/
structure VTodoItem where
  uid : String
  summary : String
  status : String
  completed : Option Nat
deriving DecidableEq

/-- A caldav `Calendar`: name, url, and its remote contents. -/
structure Calendar where
  name : String
  url : String
  events : List ICalEvent
  todos : List VTodoItem
deriving DecidableEq

/-- Substring test on `List Char`, the semantics of Python `needle in haystack`
for strings: some contiguous run of `h` equals `n`. -/
def charsContain (n : List Char) : List Char → Bool
  | [] => n.isEmpty
  | c :: t => n.isPrefixOf (c :: t) || charsContain n t

/-- Python `needle in haystack` on strings. -/
def strContains (haystack needle : String) : Bool :=
  charsContain needle.toList haystack.toList

/-- Python `str.lower()`: per-character lowercasing (the ASCII case mapping,
which is the fragment these operations rely on). -/
def pyLower (s : String) : String :=
  ⟨s.data.map Char.toLower⟩

/-- Python exceptions that the modelled code can raise. -/
inductive PyError where
  | attributeError
  | valueError (msg : String)
deriving DecidableEq

/-- The authenticated session held by a successfully constructed client. -/
inductive AuthMode where
  | oauth (token : String)
  | basic (username password : String)
deriving DecidableEq

/-- Embedding of `YandexCalendarClient.__init__`: `if token:` selects OAuth,
`elif username and password:` selects Basic auth, `else` raises `ValueError`. -/
def clientInit (token username password : Option String) : Except PyError AuthMode :=
  if strTruthy token then .ok (.oauth (token.getD ""))
  else if strTruthy username && strTruthy password then
    .ok (.basic (username.getD "") (password.getD ""))
  else .error (.valueError "Either token or username/password must be provided")

/-- The inner loop of `get_calendar` over `calendars` for a truthy `name`:
return the first calendar whose `name` matches exactly, else `None`. -/
def findCalendarNamed (n : String) : List Calendar → Option Calendar
  | [] => none
  | c :: rest => if c.name = n then some c else findCalendarNamed n rest

/-- Embedding of `YandexCalendarClient.get_calendar`: `None` on an empty list,
a linear name scan when `name` is truthy, else the first calendar. -/
def get_calendar (cals : List Calendar) (name : Option String) : Option Calendar :=
  if cals.isEmpty then none
  else if strTruthy name then findCalendarNamed (name.getD "") cals
  else cals.head?

/-- Embedding of `YandexCalendarClient.get_todo_calendar`: the first calendar
whose url contains the substring `'todos'`, else `None`. -/
def get_todo_calendar : List Calendar → Option Calendar
  | [] => none
  | c :: rest =>
    if strContains c.url "todos" then some c else get_todo_calendar rest

/-- The `if not calendar: calendar = self.get_calendar()` default used by the
event operations (a caldav `Calendar` object is always truthy). -/
def resolveCalendarArg (calOpt : Option Calendar) (cals : List Calendar) : Option Calendar :=
  match calOpt with
  | some c => some c
  | none => get_calendar cals none

/-- The `if not todo_calendar: todo_calendar = self.get_todo_calendar()`
default used by the todo operations. -/
def resolveTodoArg (tcOpt : Option Calendar) (cals : List Calendar) : Option Calendar :=
  match tcOpt with
  | some c => some c
  | none => get_todo_calendar cals

/-- The arguments `calendar.date_search(start=start, end=end)` receives; the
query itself is executed by the caldav library, so the embedding records it. -/
structure RangeQuery where
  calUrl : String
  start : Option Nat
  stop : Option Nat
deriving DecidableEq

/-- Embedding of `YandexCalendarClient.get_events`: return `[]` (here `none`,
no query issued) when no calendar resolves, else hand `start`/`end` unchanged
to `date_search` on the resolved calendar. -/
def get_events (cals : List Calendar) (calOpt : Option Calendar)
    (start stop : Option Nat) : Option RangeQuery :=
  match resolveCalendarArg calOpt cals with
  | none => none
  | some c => some ⟨c.url, start, stop⟩

/-- Application of one truthiness-guarded string field of `update_event`
(`if title: ical['summary'] = title`): `None` and `""` leave the old value. -/
def pyStrField (newVal : Option String) (old : String) : String :=
  match newVal with
  | none => old
  | some s => if s.isEmpty then old else s

/-- Application of one truthiness-guarded datetime field of `update_event`
(`if start: ical['dtstart'] = start`): a present datetime is always truthy. -/
def pyDtField (newVal : Option Nat) (old : Nat) : Nat :=
  match newVal with
  | none => old
  | some v => v

/-- The field assignments performed by `update_event` on the matched event's
`icalendar_component` (the uid is never touched). -/
def applyUpdateFields (ev : ICalEvent) (title description location : Option String)
    (start stop : Option Nat) : ICalEvent :=
  ⟨ev.uid, pyStrField title ev.summary, pyStrField description ev.description,
    pyStrField location ev.location, pyDtField start ev.dtstart, pyDtField stop ev.dtend⟩

/-- Outcome of `update_event`'s scan: the returned value, the calendar's
events afterwards, and the events on which `event.save()` was called. -/
structure UpdateOutcome where
  returned : Option ICalEvent
  events : List ICalEvent
  saved : List ICalEvent
deriving DecidableEq

/-- The `for event in events:` loop of `update_event`: mutate the first event
whose uid matches, save it and return it; return `None` after a full scan. -/
def updateEventLoop (uid : String) (title description location : Option String)
    (start stop : Option Nat) : List ICalEvent → UpdateOutcome
  | [] => ⟨none, [], []⟩
  | ev :: rest =>
    if ev.uid = uid then
      let ev' := applyUpdateFields ev title description location start stop
      ⟨some ev', ev' :: rest, [ev']⟩
    else
      let r := updateEventLoop uid title description location start stop rest
      ⟨r.returned, ev :: r.events, r.saved⟩

/-- Embedding of `YandexCalendarClient.update_event`: resolve the calendar
(no `None` check — `calendar.events()` on `None` raises `AttributeError`),
then run the scan. -/
def update_event (cals : List Calendar) (uid : String)
    (title description location : Option String) (start stop : Option Nat)
    (calOpt : Option Calendar) : Except PyError UpdateOutcome :=
  match resolveCalendarArg calOpt cals with
  | none => .error .attributeError
  | some c => .ok (updateEventLoop uid title description location start stop c.events)

/-- The `for event in events:` loop of `delete_event`: delete the first match
and return `True`, else `False`; also return the remaining events. -/
def deleteEventLoop (uid : String) : List ICalEvent → Bool × List ICalEvent
  | [] => (false, [])
  | ev :: rest =>
    if ev.uid = uid then (true, rest)
    else
      let r := deleteEventLoop uid rest
      (r.1, ev :: r.2)

/-- Embedding of `YandexCalendarClient.delete_event` (same missing `None`
check as `update_event`). -/
def delete_event (cals : List Calendar) (uid : String) (calOpt : Option Calendar) :
    Except PyError (Bool × List ICalEvent) :=
  match resolveCalendarArg calOpt cals with
  | none => .error .attributeError
  | some c => .ok (deleteEventLoop uid c.events)

/-- The filter loop of `search_events`: keep, in order, every event for which
`query.lower()` occurs in `(summary + description + location).lower()`. -/
def searchEventsLoop (query : String) : List ICalEvent → List ICalEvent
  | [] => []
  | ev :: rest =>
    if strContains (pyLower (ev.summary ++ ev.description ++ ev.location)) (pyLower query) then
      ev :: searchEventsLoop query rest
    else searchEventsLoop query rest

/-- Embedding of `YandexCalendarClient.search_events` (same missing `None`
check as `update_event`). -/
def search_events (cals : List Calendar) (query : String) (calOpt : Option Calendar) :
    Except PyError (List ICalEvent) :=
  match resolveCalendarArg calOpt cals with
  | none => .error .attributeError
  | some c => .ok (searchEventsLoop query c.events)

/-- Embedding of `YandexCalendarClient.get_todos`: `[]` when no todo calendar
resolves, else the calendar's todos (`todo_calendar.todos()`). -/
def get_todos (cals : List Calendar) (tcOpt : Option Calendar) : List VTodoItem :=
  match resolveTodoArg tcOpt cals with
  | none => []
  | some c => c.todos

/-- Outcome of a todo mutation: whether a match was found, the todos
afterwards, and the todos on which `todo.save()` was called. -/
structure TodoOutcome where
  found : Bool
  todos : List VTodoItem
  saved : List VTodoItem
deriving DecidableEq

/-- The loop of `complete_todo`: set the first match's status to
`'COMPLETED'` and its completion timestamp to now, save it, return `True`. -/
def completeTodoLoop (now : Nat) (uid : String) : List VTodoItem → TodoOutcome
  | [] => ⟨false, [], []⟩
  | t :: rest =>
    if t.uid = uid then
      let t' : VTodoItem := ⟨t.uid, t.summary, "COMPLETED", some now⟩
      ⟨true, t' :: rest, [t']⟩
    else
      let r := completeTodoLoop now uid rest
      ⟨r.found, t :: r.todos, r.saved⟩

/-- Embedding of `YandexCalendarClient.complete_todo`: resolve the todo
calendar, list its todos via `get_todos` (which tolerates `None`), scan. -/
def complete_todo (now : Nat) (cals : List Calendar) (uid : String)
    (tcOpt : Option Calendar) : TodoOutcome :=
  completeTodoLoop now uid (get_todos cals (resolveTodoArg tcOpt cals))

/-- The loop of `delete_todo`: delete the first match and return `True`. -/
def deleteTodoLoop (uid : String) : List VTodoItem → Bool × List VTodoItem
  | [] => (false, [])
  | t :: rest =>
    if t.uid = uid then (true, rest)
    else
      let r := deleteTodoLoop uid rest
      (r.1, t :: r.2)

/-- Embedding of `YandexCalendarClient.delete_todo`. -/
def delete_todo (cals : List Calendar) (uid : String) (tcOpt : Option Calendar) :
    Bool × List VTodoItem :=
  deleteTodoLoop uid (get_todos cals (resolveTodoArg tcOpt cals))

/-- A `VALARM` subcomponent as built by `create_event`: action, description,
and a trigger offset in minutes relative to the event start (negative means
before the start). -/
structure VAlarmComp where
  action : String
  description : String
  triggerMinutes : Int
deriving DecidableEq

/-- The `VEVENT` object assembled by `create_event` before it is serialized
and handed to `calendar.save_event`. -/
structure BuiltEvent where
  summary : String
  description : Option String
  location : Option String
  dtstart : Nat
  dtend : Nat
  dtstamp : Nat
  alarms : List VAlarmComp
  rrule : Option String
deriving DecidableEq

/-- Embedding of the object-building part of `YandexCalendarClient.create_event`
(`now` is `datetime.datetime.now()`): description/location are added only when
truthy, `start` defaults to now, `end` to `start + 1 hour`; a truthy
`reminder_minutes` attaches one DISPLAY alarm triggered
`timedelta(minutes=-reminder_minutes)` relative to the start; a truthy `rrule`
string is parsed by `vRecur.from_ical` and attached, which we record as the
verbatim rule text. -/
def create_event_build (now : Nat) (title description location : String)
    (start stop : Option Nat) (reminder_minutes : Option Int)
    (rrule : Option String) : BuiltEvent :=
  let s := pyDtField start now
  let e := pyDtField stop (s + microsecondsPerHour)
  { summary := title
    description := if description.isEmpty then none else some description
    location := if location.isEmpty then none else some location
    dtstart := s
    dtend := e
    dtstamp := now
    alarms :=
      if intTruthy reminder_minutes then
        [⟨"DISPLAY", "Напоминание: " ++ title, -(reminder_minutes.getD 0)⟩]
      else []
    rrule := if strTruthy rrule then rrule else none }

/-- The `VTODO` object assembled by `create_todo`. -/
structure BuiltTodo where
  summary : String
  description : Option String
  categories : Option (List String)
  priority : Int
  status : String
  created : Nat
  due : Option Nat
deriving DecidableEq

/-- Embedding of `YandexCalendarClient.create_todo`: `None` when no todo
calendar resolves; otherwise build and save one VTODO with status
`'NEEDS-ACTION'` and creation time now (tags and due added only if truthy). -/
def create_todo (now : Nat) (cals : List Calendar) (title description : String)
    (tags : Option (List String)) (priority : Int) (due : Option Nat)
    (tcOpt : Option Calendar) : Option BuiltTodo :=
  match resolveTodoArg tcOpt cals with
  | none => none
  | some _ =>
    some { summary := title
           description := if description.isEmpty then none else some description
           categories :=
             match tags with
             | none => none
             | some ts => if ts.isEmpty then none else some ts
           priority := priority
           status := "NEEDS-ACTION"
           created := now
           due := due }

/-- Truncation performed by
`datetime.datetime.now().replace(hour=0, minute=0, second=0, microsecond=0)`:
the enclosing local midnight. -/
def truncateToMidnight (now : Nat) : Nat :=
  now / microsecondsPerDay * microsecondsPerDay

/-- Embedding of the `events --today` branch of `main` with no `--calendar`
flag: `start` is local midnight, `end` is `start + timedelta(days=1)`, the
calendar defaults via `get_calendar(None)` (missing calendar is the error
exit, modelled as `none`), and the window is handed to `get_events`. -/
def eventsTodayCommand (now : Nat) (cals : List Calendar) : Option RangeQuery :=
  let start := truncateToMidnight now
  let stop := start + microsecondsPerDay
  match get_calendar cals none with
  | none => none
  | some c => get_events cals (some c) (some start) (some stop)

/-! Concrete fixtures used by example-level conjuncts and witnesses. -/

/-- The spec's example event: titled "Alpha", described "Beta", located "Gamma". -/
def demoAlpha : ICalEvent := ⟨"u1", "Alpha", "Beta", "Gamma", 0, 3600000000⟩

/-- An unrelated event none of whose text fields contains "alp". -/
def demoOther : ICalEvent := ⟨"u2", "Standup", "Daily sync", "Office", 0, 3600000000⟩

/-- A one-calendar server holding the two demo events. -/
def demoCals : List Calendar :=
  [⟨"Work", "https://caldav.yandex.ru/calendars/1", [demoAlpha, demoOther], []⟩]

/-! Helper lemmas shared between claims. -/

theorem strTruthy_none_eq : strTruthy none = false := rfl

theorem strTruthy_some_of_ne (s : String) (h : s ≠ "") : strTruthy (some s) = true := by
  have he : s.isEmpty = false := by
    rw [Bool.eq_false_iff]
    intro hh
    exact h ((String.isEmpty_iff s).mp hh)
  simp [strTruthy, he]

theorem findCalendarNamed_eq_find (n : String) (cals : List Calendar) :
    findCalendarNamed n cals = cals.find? (fun c => c.name == n) := by
  induction cals with
  | nil => rfl
  | cons c rest ih =>
    by_cases h : c.name = n
    · simp [findCalendarNamed, h]
    · simp [findCalendarNamed, h, ih]

theorem get_todo_calendar_eq_find (cals : List Calendar) :
    get_todo_calendar cals = cals.find? (fun c => strContains c.url "todos") := by
  induction cals with
  | nil => rfl
  | cons c rest ih =>
    by_cases h : strContains c.url "todos" = true
    · simp [get_todo_calendar, h]
    · simp [get_todo_calendar, h, ih]

theorem updateEventLoop_no_match (uid : String) (t d l : Option String)
    (s e : Option Nat) (evs : List ICalEvent) (h : ∀ ev ∈ evs, ev.uid ≠ uid) :
    updateEventLoop uid t d l s e evs = ⟨none, evs, []⟩ := by
  induction evs with
  | nil => rfl
  | cons ev rest ih =>
    have h1 : ev.uid ≠ uid := h ev (List.mem_cons_self ev rest)
    have h2 : ∀ x ∈ rest, x.uid ≠ uid := fun x hx => h x (List.mem_cons_of_mem ev hx)
    simp [updateEventLoop, h1, ih h2]

theorem deleteEventLoop_no_match (uid : String) (evs : List ICalEvent)
    (h : ∀ ev ∈ evs, ev.uid ≠ uid) :
    deleteEventLoop uid evs = (false, evs) := by
  induction evs with
  | nil => rfl
  | cons ev rest ih =>
    have h1 : ev.uid ≠ uid := h ev (List.mem_cons_self ev rest)
    have h2 : ∀ x ∈ rest, x.uid ≠ uid := fun x hx => h x (List.mem_cons_of_mem ev hx)
    simp [deleteEventLoop, h1, ih h2]

theorem completeTodoLoop_no_match (now : Nat) (uid : String) (ts : List VTodoItem)
    (h : ∀ t ∈ ts, t.uid ≠ uid) :
    completeTodoLoop now uid ts = ⟨false, ts, []⟩ := by
  induction ts with
  | nil => rfl
  | cons t rest ih =>
    have h1 : t.uid ≠ uid := h t (List.mem_cons_self t rest)
    have h2 : ∀ x ∈ rest, x.uid ≠ uid := fun x hx => h x (List.mem_cons_of_mem t hx)
    simp [completeTodoLoop, h1, ih h2]

theorem completeTodoLoop_first_match (now : Nat) (uid : String)
    (pre post : List VTodoItem) (m : VTodoItem) (hm : m.uid = uid)
    (hpre : ∀ t ∈ pre, t.uid ≠ uid) :
    completeTodoLoop now uid (pre ++ m :: post)
      = ⟨true, pre ++ (⟨m.uid, m.summary, "COMPLETED", some now⟩ : VTodoItem) :: post,
         [⟨m.uid, m.summary, "COMPLETED", some now⟩]⟩ := by
  induction pre with
  | nil => simp [completeTodoLoop, hm]
  | cons t rest ih =>
    have h1 : t.uid ≠ uid := hpre t (List.mem_cons_self t rest)
    have h2 : ∀ x ∈ rest, x.uid ≠ uid := fun x hx => hpre x (List.mem_cons_of_mem t hx)
    simp [completeTodoLoop, h1, ih h2]

theorem deleteTodoLoop_no_match (uid : String) (ts : List VTodoItem)
    (h : ∀ t ∈ ts, t.uid ≠ uid) :
    deleteTodoLoop uid ts = (false, ts) := by
  induction ts with
  | nil => rfl
  | cons t rest ih =>
    have h1 : t.uid ≠ uid := h t (List.mem_cons_self t rest)
    have h2 : ∀ x ∈ rest, x.uid ≠ uid := fun x hx => h x (List.mem_cons_of_mem t hx)
    simp [deleteTodoLoop, h1, ih h2]

theorem deleteTodoLoop_first_match (uid : String) (pre post : List VTodoItem)
    (m : VTodoItem) (hm : m.uid = uid) (hpre : ∀ t ∈ pre, t.uid ≠ uid) :
    deleteTodoLoop uid (pre ++ m :: post) = (true, pre ++ post) := by
  induction pre with
  | nil => simp [deleteTodoLoop, hm]
  | cons t rest ih =>
    have h1 : t.uid ≠ uid := hpre t (List.mem_cons_self t rest)
    have h2 : ∀ x ∈ rest, x.uid ≠ uid := fun x hx => hpre x (List.mem_cons_of_mem t hx)
    simp [deleteTodoLoop, h1, ih h2]

/-! Claim theorems. -/

/-- Claim C3: construction succeeds whenever at least one authentication mode
is (truthily) supplied — a nonempty token alone, a nonempty username+password
pair, or both together — and raises a configuration `ValueError` on every
input on which neither mode is complete: whenever the token is not supplied
and the username/password pair is incomplete (so also for a username without
a password, a password without a username, and empty strings, which the
code's truthiness guards treat as absent). -/
theorem claim3_init_auth :
    (∀ (t : String), t ≠ "" → ∀ (oU oP : Option String),
        ∃ m, clientInit (some t) oU oP = .ok m)
    ∧ (∀ (u p : String), u ≠ "" → p ≠ "" →
        ∃ m, clientInit none (some u) (some p) = .ok m)
    ∧ (∀ (t u p : String), t ≠ "" → u ≠ "" → p ≠ "" →
        ∃ m, clientInit (some t) (some u) (some p) = .ok m)
    ∧ (∀ (oT oU oP : Option String),
        strTruthy oT = true ∨ (strTruthy oU = true ∧ strTruthy oP = true) →
        ∃ m, clientInit oT oU oP = .ok m)
    ∧ (∀ (oT oU oP : Option String),
        strTruthy oT = false → (strTruthy oU = false ∨ strTruthy oP = false) →
        ∃ err, clientInit oT oU oP = .error err) := by
  refine ⟨?_, ?_, ?_, ?_, ?_⟩
  · intro t ht oU oP
    exact ⟨.oauth t, by simp [clientInit, strTruthy_some_of_ne t ht]⟩
  · intro u p hu hp
    exact ⟨.basic u p, by
      simp [clientInit, strTruthy_none_eq, strTruthy_some_of_ne u hu,
        strTruthy_some_of_ne p hp]⟩
  · intro t u p ht _ _
    exact ⟨.oauth t, by simp [clientInit, strTruthy_some_of_ne t ht]⟩
  · intro oT oU oP h
    rcases h with h | ⟨hu, hp⟩
    · exact ⟨.oauth (oT.getD ""), by simp [clientInit, h]⟩
    · by_cases hT : strTruthy oT = true
      · exact ⟨.oauth (oT.getD ""), by simp [clientInit, hT]⟩
      · have hT2 : strTruthy oT = false := by
          rw [Bool.eq_false_iff]; exact hT
        exact ⟨.basic (oU.getD "") (oP.getD ""), by simp [clientInit, hT2, hu, hp]⟩
  · intro oT oU oP hT hUP
    refine ⟨.valueError "Either token or username/password must be provided", ?_⟩
    have h2 : (strTruthy oU && strTruthy oP) = false := by
      rcases hUP with h | h <;> simp [h]
    simp [clientInit, hT, h2]

/-- Witness for C3 at concrete inputs, including a username supplied without
a password. -/
theorem claim3_witness :
    (∃ m, clientInit (some "tok") none none = .ok m)
    ∧ (∃ m, clientInit none (some "user") (some "pw") = .ok m)
    ∧ (∃ err, clientInit none (some "user") none = .error err)
    ∧ (∃ err, clientInit none none none = .error err) := by
  refine ⟨?_, ?_, ?_, ?_⟩
  · exact claim3_init_auth.1 "tok" (by decide) none none
  · exact claim3_init_auth.2.1 "user" "pw" (by decide) (by decide)
  · exact claim3_init_auth.2.2.2.2 none (some "user") none rfl (Or.inr rfl)
  · exact claim3_init_auth.2.2.2.2 none none none rfl (Or.inl rfl)

/-- Claim C5: with a (nonempty) name supplied, `get_calendar` returns the
first calendar whose name matches by exact case-sensitive comparison, and
`None` when no name matches (including the empty list); with the name
omitted it returns the first calendar in server order, and `None` when the
calendar list is empty. -/
theorem claim5_get_calendar (cals : List Calendar) (n : String) (hn : n ≠ "") :
    get_calendar cals (some n) = cals.find? (fun c => c.name == n)
    ∧ get_calendar cals none = cals.head? := by
  constructor
  · cases cals with
    | nil => rfl
    | cons c rest =>
      simp [get_calendar, strTruthy_some_of_ne n hn, findCalendarNamed_eq_find]
  · cases cals with
    | nil => rfl
    | cons c rest => simp [get_calendar, strTruthy]

/-- Witness for C5 at concrete inputs. -/
theorem claim5_witness :
    get_calendar [⟨"a", "u1", [], []⟩, ⟨"b", "u2", [], []⟩] (some "b")
      = some ⟨"b", "u2", [], []⟩
    ∧ get_calendar [⟨"a", "u1", [], []⟩, ⟨"b", "u2", [], []⟩] none
      = some ⟨"a", "u1", [], []⟩
    ∧ get_calendar ([] : List Calendar) none = none
    ∧ get_calendar [⟨"a", "u1", [], []⟩] (some "missing") = none := by
  have h1 := claim5_get_calendar [⟨"a", "u1", [], []⟩, ⟨"b", "u2", [], []⟩] "b" (by decide)
  have h2 := claim5_get_calendar ([] : List Calendar) "b" (by decide)
  have h3 := claim5_get_calendar [⟨"a", "u1", [], []⟩] "missing" (by decide)
  refine ⟨?_, ?_, h2.2, ?_⟩
  · rw [h1.1]; rfl
  · rw [h1.2]; rfl
  · rw [h3.1]; rfl

/-- Claim C6: `get_todo_calendar` returns the first calendar whose url
contains the fixed marker substring `'todos'`, and `None` when no calendar's
url contains it, even when other calendars exist. -/
theorem claim6_get_todo_calendar (cals : List Calendar) :
    get_todo_calendar cals = cals.find? (fun c => strContains c.url "todos")
    ∧ ((∀ c ∈ cals, strContains c.url "todos" = false) → get_todo_calendar cals = none) := by
  refine ⟨get_todo_calendar_eq_find cals, fun h => ?_⟩
  rw [get_todo_calendar_eq_find cals]
  exact List.find?_eq_none.mpr (fun c hc => by simp [h c hc])

/-- Witness for C6 at concrete inputs. -/
theorem claim6_witness :
    get_todo_calendar [⟨"a", "https://x/1", [], []⟩, ⟨"b", "https://x/todos/2", [], []⟩]
      = some ⟨"b", "https://x/todos/2", [], []⟩
    ∧ get_todo_calendar [⟨"a", "https://x/1", [], []⟩, ⟨"b", "https://x/2", [], []⟩] = none := by
  have h1 := claim6_get_todo_calendar
    [⟨"a", "https://x/1", [], []⟩, ⟨"b", "https://x/todos/2", [], []⟩]
  have h2 := claim6_get_todo_calendar
    [⟨"a", "https://x/1", [], []⟩, ⟨"b", "https://x/2", [], []⟩]
  refine ⟨?_, h2.2 (by decide)⟩
  rw [h1.1]; rfl

/-- Claim C4: `search_events` keeps exactly those events, in original server
order, for which the lowercased query occurs as a substring of the lowercased
concatenation of the event's title, description and location; concretely, on
the calendar holding the "Alpha"/"Beta"/"Gamma" event and an unrelated event,
both query "alp" and query "ALP" return only the first event. -/
theorem claim4_search_events :
    (∀ (query : String) (evs : List ICalEvent),
        searchEventsLoop query evs
          = evs.filter (fun ev =>
              strContains (pyLower (ev.summary ++ ev.description ++ ev.location))
                (pyLower query)))
    ∧ search_events demoCals "alp" none = .ok [demoAlpha]
    ∧ search_events demoCals "ALP" none = .ok [demoAlpha] := by
  refine ⟨?_, rfl, rfl⟩
  intro query evs
  induction evs with
  | nil => rfl
  | cons ev rest ih =>
    by_cases h :
        strContains (pyLower (ev.summary ++ ev.description ++ ev.location)) (pyLower query)
          = true
    · simp [searchEventsLoop, List.filter_cons, h, ih]
    · simp [searchEventsLoop, List.filter_cons, h, ih]

/-- Claim C10: for a matched event, `update_event` treats a supplied
empty-string title, description or location exactly like an omitted one —
the scan result is identical and the corresponding fields keep their old
values (they are never cleared), because the field assignments are guarded by
truthiness. -/
theorem claim10_empty_string_update (uid : String) (s e : Option Nat)
    (evs : List ICalEvent) :
    updateEventLoop uid (some "") (some "") (some "") s e evs
      = updateEventLoop uid none none none s e evs
    ∧ (∀ ev : ICalEvent,
        (applyUpdateFields ev (some "") (some "") (some "") s e).summary = ev.summary
        ∧ (applyUpdateFields ev (some "") (some "") (some "") s e).description
            = ev.description
        ∧ (applyUpdateFields ev (some "") (some "") (some "") s e).location
            = ev.location) := by
  have happ : ∀ ev : ICalEvent,
      applyUpdateFields ev (some "") (some "") (some "") s e
        = applyUpdateFields ev none none none s e := by
    intro ev; rfl
  constructor
  · induction evs with
    | nil => rfl
    | cons ev rest ih =>
      by_cases h : ev.uid = uid
      · simp [updateEventLoop, h, happ ev]
      · simp [updateEventLoop, h, ih]
  · intro ev
    exact ⟨rfl, rfl, rfl⟩


/-- Claim C2: on a calendar holding two events of which exactly one matches
`uid`, the `update_event` scan mutates only the matching event, applies
exactly the truthiness-supplied fields and leaves every omitted field (and
the uid) unchanged, saves the updated event, and returns it; when neither
event matches, it returns `None`, saves nothing, and mutates no event. -/
theorem claim2_update_event_frame (a b : ICalEvent) (uid : String)
    (t d l : Option String) (s e : Option Nat) :
    (a.uid = uid →
      updateEventLoop uid t d l s e [a, b]
        = ⟨some (applyUpdateFields a t d l s e), [applyUpdateFields a t d l s e, b],
           [applyUpdateFields a t d l s e]⟩)
    ∧ (a.uid ≠ uid → b.uid = uid →
      updateEventLoop uid t d l s e [a, b]
        = ⟨some (applyUpdateFields b t d l s e), [a, applyUpdateFields b t d l s e],
           [applyUpdateFields b t d l s e]⟩)
    ∧ (a.uid ≠ uid → b.uid ≠ uid →
      updateEventLoop uid t d l s e [a, b] = ⟨none, [a, b], []⟩)
    ∧ (∀ ev : ICalEvent,
        (applyUpdateFields ev t d l s e).uid = ev.uid
        ∧ (t = none → (applyUpdateFields ev t d l s e).summary = ev.summary)
        ∧ (∀ x, t = some x → x ≠ "" → (applyUpdateFields ev t d l s e).summary = x)
        ∧ (d = none → (applyUpdateFields ev t d l s e).description = ev.description)
        ∧ (∀ x, d = some x → x ≠ "" → (applyUpdateFields ev t d l s e).description = x)
        ∧ (l = none → (applyUpdateFields ev t d l s e).location = ev.location)
        ∧ (∀ x, l = some x → x ≠ "" → (applyUpdateFields ev t d l s e).location = x)
        ∧ (s = none → (applyUpdateFields ev t d l s e).dtstart = ev.dtstart)
        ∧ (∀ v, s = some v → (applyUpdateFields ev t d l s e).dtstart = v)
        ∧ (e = none → (applyUpdateFields ev t d l s e).dtend = ev.dtend)
        ∧ (∀ v, e = some v → (applyUpdateFields ev t d l s e).dtend = v)) := by
  refine ⟨?_, ?_, ?_, ?_⟩
  · intro ha
    simp [updateEventLoop, ha]
  · intro ha hb
    simp [updateEventLoop, ha, hb]
  · intro ha hb
    simp [updateEventLoop, ha, hb]
  · intro ev
    refine ⟨rfl, ?_, ?_, ?_, ?_, ?_, ?_, ?_, ?_, ?_, ?_⟩
    · rintro rfl; rfl
    · rintro x rfl hx
      have he : x.isEmpty = false := by
        rw [Bool.eq_false_iff]
        intro hh
        exact hx ((String.isEmpty_iff x).mp hh)
      simp [applyUpdateFields, pyStrField, he]
    · rintro rfl; rfl
    · rintro x rfl hx
      have he : x.isEmpty = false := by
        rw [Bool.eq_false_iff]
        intro hh
        exact hx ((String.isEmpty_iff x).mp hh)
      simp [applyUpdateFields, pyStrField, he]
    · rintro rfl; rfl
    · rintro x rfl hx
      have he : x.isEmpty = false := by
        rw [Bool.eq_false_iff]
        intro hh
        exact hx ((String.isEmpty_iff x).mp hh)
      simp [applyUpdateFields, pyStrField, he]
    · rintro rfl; rfl
    · rintro v rfl; rfl
    · rintro rfl; rfl
    · rintro v rfl; rfl

/-- Witness for C2: updating only the title of the first of two events. -/
theorem claim2_witness :
    updateEventLoop "u1" (some "new") none none none none
        [⟨"u1", "old", "d", "l", 0, 1⟩, ⟨"u2", "o2", "d2", "l2", 2, 3⟩]
      = ⟨some ⟨"u1", "new", "d", "l", 0, 1⟩,
         [⟨"u1", "new", "d", "l", 0, 1⟩, ⟨"u2", "o2", "d2", "l2", 2, 3⟩],
         [⟨"u1", "new", "d", "l", 0, 1⟩]⟩ := by
  have h := (claim2_update_event_frame ⟨"u1", "old", "d", "l", 0, 1⟩
    ⟨"u2", "o2", "d2", "l2", 2, 3⟩ "u1" (some "new") none none none none).1 rfl
  rw [h]
  rfl

/-- Claim C7: `create_event` builds one event whose summary is the given
title, whose start defaults to the current time when omitted, whose end
defaults to start plus one hour when omitted, which carries exactly one
DISPLAY alarm triggered `reminder_minutes` minutes before the start whenever
a (truthy) `reminder_minutes` is supplied and none when it is omitted, and
which carries the supplied (truthy) recurrence rule verbatim. -/
theorem claim7_create_event_defaults (now : Nat) (title description location : String)
    (start stop : Option Nat) (rm : Option Int) (rrule : Option String) :
    (create_event_build now title description location start stop rm rrule).summary = title
    ∧ (start = none →
        (create_event_build now title description location start stop rm rrule).dtstart = now)
    ∧ (∀ v, start = some v →
        (create_event_build now title description location start stop rm rrule).dtstart = v)
    ∧ (stop = none →
        (create_event_build now title description location start stop rm rrule).dtend
          = (create_event_build now title description location start stop rm rrule).dtstart
            + microsecondsPerHour)
    ∧ (∀ v, stop = some v →
        (create_event_build now title description location start stop rm rrule).dtend = v)
    ∧ (∀ m, rm = some m → m ≠ 0 →
        (create_event_build now title description location start stop rm rrule).alarms
          = [⟨"DISPLAY", "Напоминание: " ++ title, -m⟩])
    ∧ (rm = none →
        (create_event_build now title description location start stop rm rrule).alarms = [])
    ∧ (∀ r, rrule = some r → r ≠ "" →
        (create_event_build now title description location start stop rm rrule).rrule = some r)
    ∧ (rrule = none →
        (create_event_build now title description location start stop rm rrule).rrule
          = none) := by
  refine ⟨rfl, ?_, ?_, ?_, ?_, ?_, ?_, ?_, ?_⟩
  · rintro rfl; rfl
  · rintro v rfl; rfl
  · rintro rfl
    have h1 : (create_event_build now title description location start none rm rrule).dtend
        = pyDtField start now + microsecondsPerHour := rfl
    have h2 : (create_event_build now title description location start none rm rrule).dtstart
        = pyDtField start now := rfl
    rw [h1, h2]
  · rintro v rfl; rfl
  · rintro m rfl hm
    have : intTruthy (some m) = true := by
      simp [intTruthy, hm]
    simp [create_event_build, this]
  · rintro rfl; rfl
  · rintro r rfl hr
    simp [create_event_build, strTruthy_some_of_ne r hr]
  · rintro rfl; rfl

/-- Witness for C7: a concrete event with defaulted start/end, a 10-minute
reminder and a weekly recurrence rule. -/
theorem claim7_witness :
    (create_event_build 5 "T" "" "" none none (some 10) (some "FREQ=WEEKLY")).dtstart = 5
    ∧ (create_event_build 5 "T" "" "" none none (some 10) (some "FREQ=WEEKLY")).dtend
        = 5 + microsecondsPerHour
    ∧ (create_event_build 5 "T" "" "" none none (some 10) (some "FREQ=WEEKLY")).alarms
        = [⟨"DISPLAY", "Напоминание: T", -10⟩]
    ∧ (create_event_build 5 "T" "" "" none none (some 10) (some "FREQ=WEEKLY")).rrule
        = some "FREQ=WEEKLY" := by
  have h := claim7_create_event_defaults 5 "T" "" "" none none (some 10) (some "FREQ=WEEKLY")
  refine ⟨h.2.1 rfl, ?_, ?_, h.2.2.2.2.2.2.2.1 "FREQ=WEEKLY" rfl (by decide)⟩
  · rw [h.2.2.2.1 rfl, h.2.1 rfl]
  · rw [h.2.2.2.2.2.1 10 rfl (by decide)]
    rfl

/-- Claim C8: `complete_todo` linearly scans the todos returned by
`get_todos`, sets the first todo whose uid matches to status `'COMPLETED'`
with completion timestamp now, saves exactly that todo, and returns `True`;
it returns `False` and saves nothing when no uid matches; `delete_todo`
likewise deletes the first match and returns whether one was found,
returning `False` for a nonexistent uid. -/
theorem claim8_todo_complete_delete (now : Nat) (cals : List Calendar)
    (uid : String) (tc : Calendar) :
    (∀ pre post (m : VTodoItem), tc.todos = pre ++ m :: post → m.uid = uid →
      (∀ t ∈ pre, t.uid ≠ uid) →
      complete_todo now cals uid (some tc)
        = ⟨true, pre ++ (⟨m.uid, m.summary, "COMPLETED", some now⟩ : VTodoItem) :: post,
           [⟨m.uid, m.summary, "COMPLETED", some now⟩]⟩)
    ∧ ((∀ t ∈ tc.todos, t.uid ≠ uid) →
      complete_todo now cals uid (some tc) = ⟨false, tc.todos, []⟩)
    ∧ (∀ pre post (m : VTodoItem), tc.todos = pre ++ m :: post → m.uid = uid →
      (∀ t ∈ pre, t.uid ≠ uid) →
      delete_todo cals uid (some tc) = (true, pre ++ post))
    ∧ ((∀ t ∈ tc.todos, t.uid ≠ uid) →
      delete_todo cals uid (some tc) = (false, tc.todos)) := by
  have hres : get_todos cals (resolveTodoArg (some tc) cals) = tc.todos := rfl
  refine ⟨?_, ?_, ?_, ?_⟩
  · intro pre post m hsplit hm hpre
    show completeTodoLoop now uid (get_todos cals (resolveTodoArg (some tc) cals)) = _
    rw [hres, hsplit]
    exact completeTodoLoop_first_match now uid pre post m hm hpre
  · intro h
    show completeTodoLoop now uid (get_todos cals (resolveTodoArg (some tc) cals)) = _
    rw [hres]
    exact completeTodoLoop_no_match now uid tc.todos h
  · intro pre post m hsplit hm hpre
    show deleteTodoLoop uid (get_todos cals (resolveTodoArg (some tc) cals)) = _
    rw [hres, hsplit]
    exact deleteTodoLoop_first_match uid pre post m hm hpre
  · intro h
    show deleteTodoLoop uid (get_todos cals (resolveTodoArg (some tc) cals)) = _
    rw [hres]
    exact deleteTodoLoop_no_match uid tc.todos h

/-- Witness for C8: completing and deleting the second of two todos, and a
nonexistent uid returning `False`. -/
theorem claim8_witness :
    complete_todo 7 [] "t2" (some ⟨"c", "https://x/todos", [],
        [⟨"t1", "A", "NEEDS-ACTION", none⟩, ⟨"t2", "B", "NEEDS-ACTION", none⟩]⟩)
      = ⟨true, [⟨"t1", "A", "NEEDS-ACTION", none⟩, ⟨"t2", "B", "COMPLETED", some 7⟩],
         [⟨"t2", "B", "COMPLETED", some 7⟩]⟩
    ∧ delete_todo [] "t2" (some ⟨"c", "https://x/todos", [],
        [⟨"t1", "A", "NEEDS-ACTION", none⟩, ⟨"t2", "B", "NEEDS-ACTION", none⟩]⟩)
      = (true, [⟨"t1", "A", "NEEDS-ACTION", none⟩])
    ∧ complete_todo 7 [] "nope" (some ⟨"c", "https://x/todos", [],
        [⟨"t1", "A", "NEEDS-ACTION", none⟩]⟩)
      = ⟨false, [⟨"t1", "A", "NEEDS-ACTION", none⟩], []⟩
    ∧ delete_todo [] "nope" (some ⟨"c", "https://x/todos", [],
        [⟨"t1", "A", "NEEDS-ACTION", none⟩]⟩)
      = (false, [⟨"t1", "A", "NEEDS-ACTION", none⟩]) := by
  have h1 := claim8_todo_complete_delete 7 [] "t2"
    ⟨"c", "https://x/todos", [],
      [⟨"t1", "A", "NEEDS-ACTION", none⟩, ⟨"t2", "B", "NEEDS-ACTION", none⟩]⟩
  have h2 := claim8_todo_complete_delete 7 [] "nope"
    ⟨"c", "https://x/todos", [], [⟨"t1", "A", "NEEDS-ACTION", none⟩]⟩
  refine ⟨?_, ?_, ?_, ?_⟩
  · exact h1.1 [⟨"t1", "A", "NEEDS-ACTION", none⟩] [] ⟨"t2", "B", "NEEDS-ACTION", none⟩
      rfl rfl (by decide)
  · exact h1.2.2.1 [⟨"t1", "A", "NEEDS-ACTION", none⟩] [] ⟨"t2", "B", "NEEDS-ACTION", none⟩
      rfl rfl (by decide)
  · exact h2.2.1 (by decide)
  · exact h2.2.2.2 (by decide)

/-- Claim C9: the `events --today` path with no `--calendar` flag passes the
window from local midnight of the current day to midnight plus one day,
unmodified, to the resolved calendar's date-range search: the query start is
the current time truncated to 00:00:00.000000 (a day-aligned instant not
after `now`, with `now` inside the day), and the query end is that value
plus one day. -/
theorem claim9_events_today_window (now : Nat) (cals : List Calendar) (c : Calendar)
    (hc : get_calendar cals none = some c) :
    eventsTodayCommand now cals
      = some ⟨c.url, some (truncateToMidnight now),
              some (truncateToMidnight now + microsecondsPerDay)⟩
    ∧ truncateToMidnight now % microsecondsPerDay = 0
    ∧ truncateToMidnight now ≤ now
    ∧ now < truncateToMidnight now + microsecondsPerDay := by
  refine ⟨?_, ?_, ?_, ?_⟩
  · simp only [eventsTodayCommand, hc]
    rfl
  · simp only [truncateToMidnight, microsecondsPerDay]
    omega
  · simp only [truncateToMidnight, microsecondsPerDay]
    omega
  · simp only [truncateToMidnight, microsecondsPerDay]
    omega

/-- Witness for C9 at a concrete clock reading and a one-calendar server. -/
theorem claim9_witness :
    eventsTodayCommand 90000000123 [⟨"Work", "https://x/cal", [], []⟩]
      = some ⟨"https://x/cal", some 86400000000, some 172800000000⟩ := by
  have h := claim9_events_today_window 90000000123 [⟨"Work", "https://x/cal", [], []⟩]
    ⟨"Work", "https://x/cal", [], []⟩ rfl
  rw [h.1]
  rfl

/-- Claim C1 fails as stated: with an empty calendar list, so that no
calendar resolves, `update_event`, `delete_event` and `search_events` do not
report the condition as a `None`/empty/`False` result — each dereferences
the unresolved `None` calendar and raises an `AttributeError`. -/
theorem claim1_counterexample :
    update_event [] "u1" none none none none none none = .error .attributeError
    ∧ delete_event [] "u1" none = .error .attributeError
    ∧ search_events [] "alp" none = .error .attributeError :=
  ⟨rfl, rfl, rfl⟩

/-- Claim C1 (amended): missing-uid conditions are reported as `None`/`False`
results without raising, and `get_events`, `get_todos`, `create_todo`,
`complete_todo` and `delete_todo` report an unresolvable calendar as an
empty/`None`/`False` result; however `update_event`, `delete_event` and
`search_events` raise an `AttributeError` (attribute access on the `None`
calendar) when the calendar list is empty so that no calendar resolves. -/
theorem claim1_amended_not_found :
    (∀ cals uid t d l s e (c : Calendar), get_calendar cals none = some c →
        (∀ ev ∈ c.events, ev.uid ≠ uid) →
        update_event cals uid t d l s e none = .ok ⟨none, c.events, []⟩)
    ∧ (∀ cals uid (c : Calendar), get_calendar cals none = some c →
        (∀ ev ∈ c.events, ev.uid ≠ uid) →
        delete_event cals uid none = .ok (false, c.events))
    ∧ (∀ cals q (c : Calendar), get_calendar cals none = some c →
        ∃ res, search_events cals q none = .ok res)
    ∧ (∀ cals s e, get_calendar cals none = none → get_events cals none s e = none)
    ∧ (∀ cals, get_todo_calendar cals = none → get_todos cals none = [])
    ∧ (∀ now cals title descr tags pr due, get_todo_calendar cals = none →
        create_todo now cals title descr tags pr due none = none)
    ∧ (∀ now cals uid, get_todo_calendar cals = none →
        complete_todo now cals uid none = ⟨false, [], []⟩)
    ∧ (∀ cals uid, get_todo_calendar cals = none →
        delete_todo cals uid none = (false, []))
    ∧ (∀ uid t d l s e, update_event [] uid t d l s e none = .error .attributeError)
    ∧ (∀ uid, delete_event [] uid none = .error .attributeError)
    ∧ (∀ q, search_events [] q none = .error .attributeError) := by
  refine ⟨?_, ?_, ?_, ?_, ?_, ?_, ?_, ?_, ?_, ?_, ?_⟩
  · intro cals uid t d l s e c hc hno
    have h2 : resolveCalendarArg none cals = some c := hc
    simp only [update_event, h2]
    rw [updateEventLoop_no_match uid t d l s e c.events hno]
  · intro cals uid c hc hno
    have h2 : resolveCalendarArg none cals = some c := hc
    simp only [delete_event, h2]
    rw [deleteEventLoop_no_match uid c.events hno]
  · intro cals q c hc
    have h2 : resolveCalendarArg none cals = some c := hc
    exact ⟨searchEventsLoop q c.events, by simp only [search_events, h2]⟩
  · intro cals s e hc
    have h2 : resolveCalendarArg none cals = none := hc
    simp only [get_events, h2]
  · intro cals hc
    have h2 : resolveTodoArg none cals = none := hc
    simp only [get_todos, h2]
  · intro now cals title descr tags pr due hc
    have h2 : resolveTodoArg none cals = none := hc
    simp only [create_todo, h2]
  · intro now cals uid hc
    have h2 : resolveTodoArg none cals = none := hc
    simp only [complete_todo, get_todos, h2]
    rfl
  · intro cals uid hc
    have h2 : resolveTodoArg none cals = none := hc
    simp only [delete_todo, get_todos, h2]
    rfl
  · intro uid t d l s e
    rfl
  · intro uid
    rfl
  · intro q
    rfl

/-- Witness for the amended C1 at concrete inputs. -/
theorem claim1_amended_witness :
    update_event [⟨"Work", "u", [⟨"e1", "T", "D", "L", 0, 1⟩], []⟩] "zz"
        none none none none none none
      = .ok ⟨none, [⟨"e1", "T", "D", "L", 0, 1⟩], []⟩
    ∧ delete_event [⟨"Work", "u", [⟨"e1", "T", "D", "L", 0, 1⟩], []⟩] "zz" none
      = .ok (false, [⟨"e1", "T", "D", "L", 0, 1⟩])
    ∧ complete_todo 3 [] "zz" none = ⟨false, [], []⟩
    ∧ update_event [] "zz" none none none none none none = .error .attributeError := by
  refine ⟨?_, ?_, ?_, ?_⟩
  · exact claim1_amended_not_found.1 [⟨"Work", "u", [⟨"e1", "T", "D", "L", 0, 1⟩], []⟩]
      "zz" none none none none none ⟨"Work", "u", [⟨"e1", "T", "D", "L", 0, 1⟩], []⟩
      rfl (by decide)
  · exact claim1_amended_not_found.2.1 [⟨"Work", "u", [⟨"e1", "T", "D", "L", 0, 1⟩], []⟩]
      "zz" ⟨"Work", "u", [⟨"e1", "T", "D", "L", 0, 1⟩], []⟩ rfl (by decide)
  · exact claim1_amended_not_found.2.2.2.2.2.2.1 3 [] "zz" rfl
  · exact claim1_amended_not_found.2.2.2.2.2.2.2.2.1 "zz" none none none none none

end Yacal
